import Mathlib

/-!
# Shallow embedding of the galaxy-sim initial-condition generator

This file embeds `src/initialize.rs` and the configuration structures of
`src/lib.rs` of the `galaxy-sim` repository, and settles the frozen claims
about the procedural galaxy generator.

Modelling conventions:
* `f32` values are modelled as exact rationals (`ℚ`).  The transcendental
  library functions of `f32` (`sqrt`, `ln`, `sin`, `cos`, `acos`) and the
  float constant `PI` are approximate, implementation-defined operations;
  they are abstracted as an explicit record `MathOps` of rational functions
  that every definition takes as a parameter.  Claims about the generator's
  structure are proved for every interpretation of these operations.
* The random source `SmallRng::seed_from_u64(..)` of the external `rand`
  crate is modelled as a stream `Nat → ℚ` of draws together with a cursor;
  `rng.gen::<f32>()` takes the next element of the stream.  Sampling from
  `rand_distr::Normal::new(0, σ)` is modelled as `σ *` the next stream
  element (the Ziggurat internals of the external crate are abstracted).
* The `loop { .. if accept { break } }` rejection loops of the source have
  no termination bound, so they are embedded with an explicit fuel
  parameter and return `none` when the fuel is exhausted; `some` results
  correspond exactly to terminating runs of the source loops.
-/

/-- A 3-component vector of (exact) scalars, mirroring `cgmath::Vector3<f32>`. -/
structure V3 where
  x : ℚ
  y : ℚ
  z : ℚ
deriving DecidableEq, Repr

namespace V3

def add (a b : V3) : V3 := ⟨a.x + b.x, a.y + b.y, a.z + b.z⟩

def sub (a b : V3) : V3 := ⟨a.x - b.x, a.y - b.y, a.z - b.z⟩

/-- Scalar multiplication `v * c` (cgmath's `Vector3 * f32`). -/
def smul (c : ℚ) (a : V3) : V3 := ⟨c * a.x, c * a.y, c * a.z⟩

/-- cgmath's cross product `a.cross(b)`. -/
def cross (a b : V3) : V3 :=
  ⟨a.y * b.z - a.z * b.y, a.z * b.x - a.x * b.z, a.x * b.y - a.y * b.x⟩

/-- `Vector3::unit_z()`. -/
def unitZ : V3 := ⟨0, 0, 1⟩

/-- The sum of squared components (`cgmath`'s `magnitude2`). -/
def normSq (a : V3) : ℚ := a.x * a.x + a.y * a.y + a.z * a.z

instance : Add V3 := ⟨V3.add⟩
instance : Sub V3 := ⟨V3.sub⟩

end V3

/-- The approximate `f32` math library operations, abstracted: each is an
arbitrary rational-valued function.  `pi` models `std::f32::consts::PI`. -/
structure MathOps where
  sqrt : ℚ → ℚ
  ln : ℚ → ℚ
  sin : ℚ → ℚ
  cos : ℚ → ℚ
  acos : ℚ → ℚ
  pi : ℚ

namespace MathOps

/-- cgmath's `magnitude`: `sqrt` of the sum of squared components. -/
def mag (ops : MathOps) (a : V3) : ℚ := ops.sqrt a.normSq

/-- cgmath's `InnerSpace::normalize`: `self * (1 / magnitude)`. -/
def normalize (ops : MathOps) (a : V3) : V3 := V3.smul (1 / ops.mag a) a

end MathOps

/-- `SimParams` of `src/lib.rs` (the `u32` fields become `Nat`). -/
structure SimParams where
  delta_t : ℚ
  gravity : ℚ
  calibrate : ℚ
  central_mass : ℚ
  num_particles : Nat
  particles_per_group : Nat
  triangle_size : ℚ
  num_galaxies : Nat
  distance_between_galaxies : ℚ
  galaxy_velocity : ℚ
deriving DecidableEq, Repr

/-- The `Default for SimParams` impl of `src/lib.rs`. -/
def SimParams.default : SimParams where
  delta_t := 0.0016
  gravity := 1e-6
  calibrate := 1e-4
  central_mass := 1500000.0
  num_particles := 10000
  particles_per_group := 64
  triangle_size := 0.002
  num_galaxies := 4
  distance_between_galaxies := 0.5
  galaxy_velocity := 0.3

/-- `SpiralGalaxyParams` of `src/lib.rs`. -/
structure SpiralGalaxyParams where
  arms : Nat
  spiral_size : ℚ
  spiral_width : ℚ
  spiral_length : ℚ
  bulge_std : ℚ
  width : ℚ
deriving DecidableEq, Repr

/-- The `Default for SpiralGalaxyParams` impl of `src/lib.rs`. -/
def SpiralGalaxyParams.default : SpiralGalaxyParams where
  arms := 2
  spiral_size := 0.2
  spiral_width := 0.025
  spiral_length := 4.0
  bulge_std := 0.1
  width := 0.4

/-- `Particle` of `src/lib.rs`. -/
structure Particle where
  pos : V3
  vel : V3
  acc : V3
  mass : ℚ
deriving DecidableEq, Repr

/-- The morphology enum matched on by `create_galaxies` in
`src/initialize.rs` (`GalaxyType`, imported there from the crate root;
its declaration is not among the provided sources, but its two variants are
fixed by the `match` in `create_galaxies`). -/
inductive GalaxyType where
  | Elliptical
  | Spiral
deriving DecidableEq, Repr

/-- The state of the seeded random source: a stream of draws and a cursor. -/
structure RngState where
  stream : Nat → ℚ
  k : Nat

/-- `rng.gen::<f32>()`: take the next draw from the stream. -/
def genF (s : RngState) : ℚ × RngState := (s.stream s.k, ⟨s.stream, s.k + 1⟩)

/-- `Normal::new(0.0, sigma).unwrap().sample(rng)`, modelled as `sigma *`
the next stream draw. -/
def sampleNormal (sigma : ℚ) (s : RngState) : ℚ × RngState :=
  (sigma * s.stream s.k, ⟨s.stream, s.k + 1⟩)

/-- Rust `f32` truncation toward zero (used by the `%` operator). -/
def ftrunc (q : ℚ) : ℤ := if 0 ≤ q then ⌊q⌋ else ⌈q⌉

/-- Rust's `%` on floats: `x - y * trunc(x / y)`. -/
def f32rem (x y : ℚ) : ℚ := x - y * (ftrunc (x / y) : ℚ)

/-! ## `src/initialize.rs`: elliptical morphology -/

/-- `let bulge_fraction: f32 = 0.4;` in `elliptical`. -/
def bulge_fraction : ℚ := 0.4

/-- `let bulge_scale_radius: f32 = 0.15;` in `elliptical`. -/
def bulge_scale_radius : ℚ := 0.15

/-- `let disk_scale_radius: f32 = 0.3;` in `elliptical`. -/
def disk_scale_radius : ℚ := 0.3

/-- `let disk_scale_height: f32 = 0.02;` in `elliptical`. -/
def disk_scale_height : ℚ := 0.02

/-- The bulge-position rejection loop of `elliptical`
(`src/initialize.rs` lines 81–94), with explicit fuel. -/
def sampleBulgePos (ops : MathOps) : Nat → RngState → Option (V3 × RngState)
  | 0, _ => none
  | fuel + 1, s =>
    let (u1, s) := genF s
    let r := -bulge_scale_radius * ops.ln u1
    let (u2, s) := genF s
    let theta := u2 * 2 * ops.pi
    let (u3, s) := genF s
    let phi := ops.acos (2 * u3 - 1)
    let x := r * ops.sin phi * ops.cos theta
    let y := r * ops.sin phi * ops.sin theta
    let z := r * ops.cos phi
    let pos : V3 := ⟨x, y, z⟩
    if ops.mag pos ≤ 0.6 then some (pos, s) else sampleBulgePos ops fuel s

/-- The disk-position rejection loop of `elliptical`
(`src/initialize.rs` lines 97–110), with explicit fuel. -/
def sampleDiskPos (ops : MathOps) : Nat → RngState → Option (V3 × RngState)
  | 0, _ => none
  | fuel + 1, s =>
    let (u1, s) := genF s
    let r := -disk_scale_radius * ops.ln u1
    let (u2, s) := genF s
    let theta := u2 * 2 * ops.pi
    let (u3, s) := genF s
    let (u4, s) := genF s
    let z := disk_scale_height * (2 * u3 - 1) * ops.sqrt (-ops.ln u4)
    let x := r * ops.cos theta
    let y := r * ops.sin theta
    let pos : V3 := ⟨x, y, z⟩
    if ops.mag pos ≤ 0.6 ∧ 0.02 ≤ ops.mag pos then some (pos, s)
    else sampleDiskPos ops fuel s

/-- The rotation-speed expression of `elliptical` (`src/initialize.rs`
lines 119–121): `dist_sq = distance² + softening`, speed
`= sqrt(gravity·central_mass·distance² / (dist_sq·sqrt(dist_sq)))`. -/
def ellipticalRotationSpeed (ops : MathOps) (gravity central_mass softening distance : ℚ) : ℚ :=
  let dist_sq := distance * distance + softening
  ops.sqrt (gravity * central_mass * distance * distance / (dist_sq * ops.sqrt dist_sq))

/-- The velocity-dispersion draw of `elliptical` (lines 123–135): three
further uniform draws, with larger amplitude for bulge particles. -/
def ellipticalVariation (is_bulge : Bool) (s : RngState) : V3 × RngState :=
  let (v1, s) := genF s
  let (v2, s) := genF s
  let (v3, s) := genF s
  if is_bulge then (⟨v1 * 0.15 - 0.075, v2 * 0.15 - 0.075, v3 * 0.15 - 0.075⟩, s)
  else (⟨v1 * 0.05 - 0.025, v2 * 0.05 - 0.025, v3 * 0.01 - 0.005⟩, s)

/-- One iteration of the per-particle loop body of `elliptical`
(`src/initialize.rs` lines 76–148): classify bulge/disk, sample a relative
position, synthesize the orbital velocity, and build a mass-1 particle. -/
def ellipticalParticle (ops : MathOps) (fuel : Nat) (gravity central_mass softening : ℚ)
    (velocity center : V3) (s : RngState) : Option (Particle × RngState) :=
  let (u, s) := genF s
  let is_bulge : Bool := decide (u < bulge_fraction)
  match (if is_bulge then sampleBulgePos ops fuel s else sampleDiskPos ops fuel s) with
  | none => none
  | some (pos, s) =>
    let relative_pos := pos
    let final_pos := pos + center
    let rotation_dir := ops.normalize ⟨-relative_pos.y, relative_pos.x, 0⟩
    let distance := ops.mag relative_pos
    let rotation_speed := ellipticalRotationSpeed ops gravity central_mass softening distance
    let (variation, s) := ellipticalVariation is_bulge s
    let vel := V3.smul rotation_speed rotation_dir + variation + velocity
    some ({ pos := final_pos, vel := vel, acc := ⟨0, 0, 0⟩, mass := 1 }, s)

/-- Generate `count` particles by iterating a per-index step function,
threading the random state; the step index starts at `i` (the source loops
`for i in 1..num_particles`). -/
def genParticles (step : Nat → RngState → Option (Particle × RngState)) :
    Nat → Nat → RngState → Option (List Particle × RngState)
  | _, 0, s => some ([], s)
  | i, count + 1, s =>
    match step i s with
    | none => none
    | some (p, s1) =>
      match genParticles step (i + 1) count s1 with
      | none => none
      | some (ps, s2) => some (p :: ps, s2)

/-- The `elliptical` function of `src/initialize.rs` (lines 53–149): one
central particle, then `num_particles - 1` sampled particles.  The Rust
`softening` parameter receives `sim_params.calibrate`. -/
def elliptical (ops : MathOps) (fuel : Nat) (num_particles : Nat) (gravity : ℚ)
    (velocity center : V3) (central_mass softening : ℚ) (s : RngState) :
    Option (List Particle × RngState) :=
  let central : Particle :=
    { pos := center, vel := velocity, acc := ⟨0, 0, 0⟩, mass := central_mass }
  match genParticles
      (fun _ s => ellipticalParticle ops fuel gravity central_mass softening velocity center s)
      1 (num_particles - 1) s with
  | none => none
  | some (ps, s1) => some (central :: ps, s1)

/-! ## `src/initialize.rs`: spiral morphology -/

/-- The speed expression shared by `create_bulge_particle` and
`create_arm_particle` (`src/initialize.rs` lines 209 and 240):
`(gravity / (pos - galaxy_center).magnitude()).sqrt()`. -/
def spiralSpeed (ops : MathOps) (gravity : ℚ) (delta : V3) : ℚ :=
  ops.sqrt (gravity / ops.mag delta)

/-- The position rejection loop of `create_bulge_particle`
(`src/initialize.rs` lines 199–207), with explicit fuel: three Gaussian
draws (the z draw scaled by `width`), offset by the galaxy center, accepted
when `0.02 ≤ |pos - center| ≤ 0.3`. -/
def spiralBulgePos (ops : MathOps) (gp : SpiralGalaxyParams) (galaxy_center : V3) :
    Nat → RngState → Option (V3 × RngState)
  | 0, _ => none
  | fuel + 1, s =>
    let (x, s) := sampleNormal gp.bulge_std s
    let (y, s) := sampleNormal gp.bulge_std s
    let (zr, s) := sampleNormal gp.bulge_std s
    let z := zr * gp.width
    let pos : V3 := V3.add ⟨x, y, z⟩ galaxy_center
    if ops.mag (pos - galaxy_center) ≤ 0.3 ∧ 0.02 ≤ ops.mag (pos - galaxy_center) then
      some (pos, s)
    else spiralBulgePos ops gp galaxy_center fuel s

/-- `create_bulge_particle` of `src/initialize.rs` (lines 191–214). -/
def create_bulge_particle (ops : MathOps) (fuel : Nat) (gravity : ℚ)
    (gp : SpiralGalaxyParams) (galaxy_center galaxy_velocity : V3) (s : RngState) :
    Option ((V3 × V3 × ℚ) × RngState) :=
  match spiralBulgePos ops gp galaxy_center fuel s with
  | none => none
  | some (pos, s) =>
    let speed := spiralSpeed ops gravity (pos - galaxy_center)
    let vel :=
      V3.smul speed (ops.normalize (V3.cross (pos - galaxy_center) V3.unitZ)) + galaxy_velocity
    some ((pos, vel, 1), s)

/-- `create_arm_particle` of `src/initialize.rs` (lines 216–246).  The
index `i` arrives as an `f32` (the caller passes `(i - 1) as f32`). -/
def create_arm_particle (ops : MathOps) (i : ℚ) (num_particles : Nat) (gravity : ℚ)
    (gp : SpiralGalaxyParams) (galaxy_center galaxy_velocity : V3) (s : RngState) :
    (V3 × V3 × ℚ) × RngState :=
  let theta := i * (gp.spiral_length * ops.pi / ((num_particles : ℚ) * 0.8))
  let r0 := gp.spiral_size * ops.sqrt theta
  let min_radius := 1 * gp.bulge_std
  let r := max r0 min_radius
  let arm_theta := theta + (if f32rem i 2 = 0 then 0 else ops.pi)
  let (arm_deviation, s) := sampleNormal gp.spiral_width s
  let (zr, s) := sampleNormal gp.spiral_width s
  let pos : V3 :=
    V3.add ⟨(r + arm_deviation) * ops.cos arm_theta,
            (r + arm_deviation) * ops.sin arm_theta,
            zr * gp.width⟩ galaxy_center
  let speed := spiralSpeed ops gravity (pos - galaxy_center)
  let vel :=
    V3.smul speed (ops.normalize (V3.cross (pos - galaxy_center) V3.unitZ)) + galaxy_velocity
  ((pos, vel, 1), s)

/-- One iteration of the per-particle loop body of `spiral`
(`src/initialize.rs` lines 167–188): with probability 0.2 a bulge
particle, otherwise an arm particle at index `i - 1`. -/
def spiralStep (ops : MathOps) (fuel : Nat) (num_particles : Nat) (gravity : ℚ)
    (gp : SpiralGalaxyParams) (center velocity : V3) (i : Nat) (s : RngState) :
    Option (Particle × RngState) :=
  let (u, s) := genF s
  match (if u < 0.2 then create_bulge_particle ops fuel gravity gp center velocity s
         else some (create_arm_particle ops ((i - 1 : Nat) : ℚ) num_particles gravity gp
                      center velocity s)) with
  | none => none
  | some ((pos, vel, mass), s1) =>
    some ({ pos := pos, vel := vel, acc := ⟨0, 0, 0⟩, mass := mass }, s1)

/-- The `spiral` function of `src/initialize.rs` (lines 151–189): one
central particle, then `num_particles - 1` bulge/arm particles generated
with `SpiralGalaxyParams::default()`. -/
def spiral (ops : MathOps) (fuel : Nat) (num_particles : Nat) (gravity : ℚ)
    (velocity center : V3) (central_mass : ℚ) (s : RngState) :
    Option (List Particle × RngState) :=
  let central : Particle :=
    { pos := center, vel := velocity, acc := ⟨0, 0, 0⟩, mass := central_mass }
  let gp := SpiralGalaxyParams.default
  match genParticles (spiralStep ops fuel num_particles gravity gp center velocity)
      1 (num_particles - 1) s with
  | none => none
  | some (ps, s1) => some (central :: ps, s1)

/-! ## `src/initialize.rs`: galaxy layout and `create_galaxies` -/

/-- The per-galaxy center of `create_galaxies` (`src/initialize.rs` lines
11–20): the origin for a single galaxy, a point on a circle of radius
`distance_between_galaxies` otherwise. -/
def galaxyCenter (ops : MathOps) (p : SimParams) (i : Nat) : V3 :=
  if 1 < p.num_galaxies then
    let theta := 2 * ops.pi / (p.num_galaxies : ℚ) * (i : ℚ)
    ⟨ops.sin theta * p.distance_between_galaxies,
     ops.cos theta * p.distance_between_galaxies, 0⟩
  else ⟨0, 0, 0⟩

/-- The per-galaxy bulk velocity of `create_galaxies` (lines 12, 21–25). -/
def galaxyVelocity (ops : MathOps) (p : SimParams) (i : Nat) : V3 :=
  if 1 < p.num_galaxies then
    let theta := 2 * ops.pi / (p.num_galaxies : ℚ) * (i : ℚ)
    ⟨-(ops.sin theta * p.galaxy_velocity), -(ops.cos theta * p.galaxy_velocity), 0⟩
  else ⟨p.galaxy_velocity, 0, 0⟩

/-- The central particle pushed first for galaxy `i` (identical in
`elliptical` and `spiral`, lines 63–68 and 160–165). -/
def centralParticle (ops : MathOps) (p : SimParams) (i : Nat) : Particle :=
  { pos := galaxyCenter ops p i
    vel := galaxyVelocity ops p i
    acc := ⟨0, 0, 0⟩
    mass := p.central_mass }

/-- The particle block contributed by galaxy `i` in the loop body of
`create_galaxies` (lines 28–48): dispatch on the morphology. -/
def galaxyBlock (ops : MathOps) (fuel : Nat) (gt : GalaxyType) (p : SimParams)
    (i : Nat) (s : RngState) : Option (List Particle × RngState) :=
  match gt with
  | GalaxyType.Elliptical =>
    elliptical ops fuel p.num_particles p.gravity (galaxyVelocity ops p i)
      (galaxyCenter ops p i) p.central_mass p.calibrate s
  | GalaxyType.Spiral =>
    spiral ops fuel p.num_particles p.gravity (galaxyVelocity ops p i)
      (galaxyCenter ops p i) p.central_mass s

/-- The galaxy loop of `create_galaxies`, keeping each galaxy's block
separate: galaxies `i, i+1, …, i+n-1`, threading the random state. -/
def galaxyBlocksFrom (ops : MathOps) (fuel : Nat) (gt : GalaxyType) (p : SimParams) :
    Nat → Nat → RngState → Option (List (List Particle) × RngState)
  | _, 0, s => some ([], s)
  | i, n + 1, s =>
    match galaxyBlock ops fuel gt p i s with
    | none => none
    | some (b, s1) =>
      match galaxyBlocksFrom ops fuel gt p (i + 1) n s1 with
      | none => none
      | some (bs, s2) => some (b :: bs, s2)

/-- The per-galaxy blocks of a whole generation run, in galaxy order. -/
def galaxyBlocks (ops : MathOps) (fuel : Nat) (gt : GalaxyType) (p : SimParams)
    (s : RngState) : Option (List (List Particle)) :=
  (galaxyBlocksFrom ops fuel gt p 0 p.num_galaxies s).map Prod.fst

/-- `create_galaxies` of `src/initialize.rs` (lines 7–51) run from a given
initial random state: the loop pushes every galaxy's particles into one
vector, i.e. it returns the concatenation of the per-galaxy blocks. -/
def createGalaxies (ops : MathOps) (fuel : Nat) (gt : GalaxyType) (p : SimParams)
    (s : RngState) : Option (List Particle) :=
  (galaxyBlocksFrom ops fuel gt p 0 p.num_galaxies s).map (fun r => r.fst.flatten)

/-- `create_galaxies` proper: the source seeds its own rng with the
constant 42 (`SmallRng::seed_from_u64(42)`).  `seedFn` models the external
crate's seeding function, mapping a seed to a draw stream. -/
def create_galaxies (ops : MathOps) (fuel : Nat) (seedFn : Nat → Nat → ℚ)
    (gt : GalaxyType) (p : SimParams) : Option (List Particle) :=
  createGalaxies ops fuel gt p ⟨seedFn 42, 0⟩

/-! ## Concrete interpretations used to instantiate the theorems -/

/-- A concrete interpretation of the abstract math operations, used to
evaluate the generator on explicit inputs: `sqrt` is the identity, `ln` is
constantly `-1`, `sin` constantly `0`, `cos` constantly `1`. -/
def opsId : MathOps where
  sqrt := fun q => q
  ln := fun _ => -1
  sin := fun _ => 0
  cos := fun _ => 1
  acos := fun _ => 0
  pi := 13176795 / 4194304

/-- A draw stream that constantly yields `1/2`. -/
def streamHalf : Nat → ℚ := fun _ => 1/2

/-- A draw stream that constantly yields `1`. -/
def streamOne : Nat → ℚ := fun _ => 1

/-- The random state at the start of a run over `streamHalf`. -/
def stHalf : RngState := ⟨streamHalf, 0⟩

/-- The random state at the start of a run over `streamOne`. -/
def stOne : RngState := ⟨streamOne, 0⟩

/-! ## Helper lemmas -/

theorem genParticles_length (step : Nat → RngState → Option (Particle × RngState)) :
    ∀ (n i : Nat) (s : RngState) (ps : List Particle) (s2 : RngState),
      genParticles step i n s = some (ps, s2) → ps.length = n := by
  intro n
  induction n with
  | zero =>
    intro i s ps s2 h
    simp only [genParticles, Option.some.injEq, Prod.mk.injEq] at h
    simp [← h.1]
  | succ n ih =>
    intro i s ps s2 h
    simp only [genParticles] at h
    cases hstep : step i s with
    | none => rw [hstep] at h; simp at h
    | some r =>
      obtain ⟨p, s1⟩ := r
      rw [hstep] at h
      dsimp only at h
      cases hrec : genParticles step (i + 1) n s1 with
      | none => rw [hrec] at h; simp at h
      | some r2 =>
        obtain ⟨qs, s3⟩ := r2
        rw [hrec] at h
        simp only [Option.some.injEq, Prod.mk.injEq] at h
        have hl := ih (i + 1) s1 qs s3 hrec
        rw [← h.1]
        simp [hl]

theorem genParticles_step_prop (step : Nat → RngState → Option (Particle × RngState))
    (P : Particle → Prop)
    (hstep : ∀ i s p s1, step i s = some (p, s1) → P p) :
    ∀ (n i : Nat) (s : RngState) (ps : List Particle) (s2 : RngState),
      genParticles step i n s = some (ps, s2) → ∀ p ∈ ps, P p := by
  intro n
  induction n with
  | zero =>
    intro i s ps s2 h
    simp only [genParticles, Option.some.injEq, Prod.mk.injEq] at h
    rw [← h.1]
    simp
  | succ n ih =>
    intro i s ps s2 h
    simp only [genParticles] at h
    cases hs : step i s with
    | none => rw [hs] at h; simp at h
    | some r =>
      obtain ⟨p, s1⟩ := r
      rw [hs] at h
      dsimp only at h
      cases hrec : genParticles step (i + 1) n s1 with
      | none => rw [hrec] at h; simp at h
      | some r2 =>
        obtain ⟨qs, s3⟩ := r2
        rw [hrec] at h
        simp only [Option.some.injEq, Prod.mk.injEq] at h
        rw [← h.1]
        intro q hq
        rcases List.mem_cons.mp hq with hq | hq
        · exact hq ▸ hstep i s p s1 hs
        · exact ih (i + 1) s1 qs s3 hrec q hq

theorem sampleBulgePos_bound (ops : MathOps) :
    ∀ (fuel : Nat) (s : RngState) (pos : V3) (s1 : RngState),
      sampleBulgePos ops fuel s = some (pos, s1) → ops.mag pos ≤ 0.6 := by
  intro fuel
  induction fuel with
  | zero => intro s pos s1 h; simp [sampleBulgePos] at h
  | succ fuel ih =>
    intro s pos s1 h
    simp only [sampleBulgePos] at h
    split at h
    · simp only [Option.some.injEq, Prod.mk.injEq] at h
      rename_i hc
      rw [← h.1]
      exact hc
    · exact ih _ pos s1 h

theorem sampleDiskPos_bounds (ops : MathOps) :
    ∀ (fuel : Nat) (s : RngState) (pos : V3) (s1 : RngState),
      sampleDiskPos ops fuel s = some (pos, s1) →
        ops.mag pos ≤ 0.6 ∧ 0.02 ≤ ops.mag pos := by
  intro fuel
  induction fuel with
  | zero => intro s pos s1 h; simp [sampleDiskPos] at h
  | succ fuel ih =>
    intro s pos s1 h
    simp only [sampleDiskPos] at h
    split at h
    · simp only [Option.some.injEq, Prod.mk.injEq] at h
      rename_i hc
      rw [← h.1]
      exact hc
    · exact ih _ pos s1 h

theorem spiralBulgePos_bounds (ops : MathOps) (gp : SpiralGalaxyParams) (c : V3) :
    ∀ (fuel : Nat) (s : RngState) (pos : V3) (s1 : RngState),
      spiralBulgePos ops gp c fuel s = some (pos, s1) →
        ops.mag (pos - c) ≤ 0.3 ∧ 0.02 ≤ ops.mag (pos - c) := by
  intro fuel
  induction fuel with
  | zero => intro s pos s1 h; simp [spiralBulgePos] at h
  | succ fuel ih =>
    intro s pos s1 h
    simp only [spiralBulgePos] at h
    split at h
    · simp only [Option.some.injEq, Prod.mk.injEq] at h
      rename_i hc
      rw [← h.1]
      exact hc
    · exact ih _ pos s1 h

/-- Full characterization of a successful run of the elliptical
per-particle body: the sampled relative position, the mass-1 record and the
velocity synthesis, as functions of the sampler output. -/
theorem ellipticalParticle_spec (ops : MathOps) (fuel : Nat)
    (gravity central_mass softening : ℚ) (velocity center : V3) (s : RngState)
    (q : Particle) (s1 : RngState)
    (h : ellipticalParticle ops fuel gravity central_mass softening velocity center s =
      some (q, s1)) :
    ∃ pos s2,
      (if decide ((genF s).1 < bulge_fraction) then sampleBulgePos ops fuel (genF s).2
       else sampleDiskPos ops fuel (genF s).2) = some (pos, s2) ∧
      q.pos = pos + center ∧
      q.vel =
        V3.smul (ellipticalRotationSpeed ops gravity central_mass softening (ops.mag pos))
            (ops.normalize ⟨-pos.y, pos.x, 0⟩) +
          (ellipticalVariation (decide ((genF s).1 < bulge_fraction)) s2).1 +
          velocity ∧
      q.acc = ⟨0, 0, 0⟩ ∧ q.mass = 1 ∧
      s1 = (ellipticalVariation (decide ((genF s).1 < bulge_fraction)) s2).2 := by
  simp only [ellipticalParticle] at h
  split at h
  · exact absurd h (by simp)
  · rename_i pos s2 hsp
    refine ⟨pos, s2, hsp, ?_⟩
    simp only [Option.some.injEq, Prod.mk.injEq] at h
    obtain ⟨hq, hs⟩ := h
    rw [← hq]
    exact ⟨rfl, rfl, rfl, rfl, hs.symm⟩

/-- Characterization of a successful `create_bulge_particle` run. -/
theorem create_bulge_particle_spec (ops : MathOps) (fuel : Nat) (gravity : ℚ)
    (gp : SpiralGalaxyParams) (c v : V3) (s : RngState)
    (r : V3 × V3 × ℚ) (s1 : RngState)
    (h : create_bulge_particle ops fuel gravity gp c v s = some (r, s1)) :
    ∃ pos s2,
      spiralBulgePos ops gp c fuel s = some (pos, s2) ∧
      r = (pos,
           V3.smul (spiralSpeed ops gravity (pos - c))
               (ops.normalize (V3.cross (pos - c) V3.unitZ)) + v,
           1) ∧
      s1 = s2 := by
  simp only [create_bulge_particle] at h
  split at h
  · exact absurd h (by simp)
  · rename_i pos s2 hsp
    simp only [Option.some.injEq, Prod.mk.injEq] at h
    exact ⟨pos, s2, hsp, h.1.symm, h.2.symm⟩

/-- The arm angle computed by `create_arm_particle` for index `i`. -/
def armTheta (ops : MathOps) (gp : SpiralGalaxyParams) (num_particles : Nat) (i : ℚ) : ℚ :=
  let theta := i * (gp.spiral_length * ops.pi / ((num_particles : ℚ) * 0.8))
  theta + (if f32rem i 2 = 0 then 0 else ops.pi)

/-- The arm radius computed by `create_arm_particle` for index `i`. -/
def armRadius (ops : MathOps) (gp : SpiralGalaxyParams) (num_particles : Nat) (i : ℚ) : ℚ :=
  let theta := i * (gp.spiral_length * ops.pi / ((num_particles : ℚ) * 0.8))
  max (gp.spiral_size * ops.sqrt theta) (1 * gp.bulge_std)

/-- Unfolded form of `create_arm_particle`: position on the arm angle,
tangential velocity, mass 1. -/
theorem create_arm_particle_spec (ops : MathOps) (i : ℚ) (num_particles : Nat)
    (gravity : ℚ) (gp : SpiralGalaxyParams) (c v : V3) (s : RngState) :
    create_arm_particle ops i num_particles gravity gp c v s =
      (((fun pos =>
          (pos,
           V3.smul (spiralSpeed ops gravity (pos - c))
               (ops.normalize (V3.cross (pos - c) V3.unitZ)) + v,
           1))
        (V3.add
          ⟨(armRadius ops gp num_particles i + (sampleNormal gp.spiral_width s).1) *
              ops.cos (armTheta ops gp num_particles i),
           (armRadius ops gp num_particles i + (sampleNormal gp.spiral_width s).1) *
              ops.sin (armTheta ops gp num_particles i),
           (sampleNormal gp.spiral_width (sampleNormal gp.spiral_width s).2).1 * gp.width⟩
          c)),
       (sampleNormal gp.spiral_width (sampleNormal gp.spiral_width s).2).2) := by
  rfl

theorem spiralStep_mass (ops : MathOps) (fuel num_particles : Nat) (gravity : ℚ)
    (gp : SpiralGalaxyParams) (c v : V3) (i : Nat) (s : RngState)
    (q : Particle) (s1 : RngState)
    (h : spiralStep ops fuel num_particles gravity gp c v i s = some (q, s1)) :
    q.mass = 1 := by
  simp only [spiralStep] at h
  split at h
  · exact absurd h (by simp)
  · rename_i r s2 hr
    obtain ⟨pos, vel, mass⟩ := r
    simp only [Option.some.injEq, Prod.mk.injEq] at h
    obtain ⟨hq, -⟩ := h
    rw [← hq]
    split at hr
    · obtain ⟨p2, s3, -, hr2, -⟩ := create_bulge_particle_spec ops fuel gravity gp c v _ _ _ hr
      simp only [Prod.mk.injEq] at hr2
      exact hr2.2.2
    · rw [create_arm_particle_spec] at hr
      simp only [Option.some.injEq, Prod.mk.injEq] at hr
      exact hr.1.2.2.symm

theorem ellipticalStep_mass (ops : MathOps) (fuel : Nat)
    (gravity central_mass softening : ℚ) (v c : V3) (s : RngState)
    (q : Particle) (s1 : RngState)
    (h : ellipticalParticle ops fuel gravity central_mass softening v c s = some (q, s1)) :
    q.mass = 1 := by
  obtain ⟨pos, s2, -, -, -, -, hm, -⟩ :=
    ellipticalParticle_spec ops fuel gravity central_mass softening v c s q s1 h
  exact hm

/-- A successful `elliptical` block is the central particle followed by the
generated mass-1 particles. -/
theorem elliptical_spec (ops : MathOps) (fuel num_particles : Nat) (gravity : ℚ)
    (v c : V3) (central_mass softening : ℚ) (s : RngState)
    (l : List Particle) (s1 : RngState)
    (h : elliptical ops fuel num_particles gravity v c central_mass softening s =
      some (l, s1)) :
    ∃ ps s2,
      genParticles
          (fun _ s => ellipticalParticle ops fuel gravity central_mass softening v c s)
          1 (num_particles - 1) s = some (ps, s2) ∧
      l = { pos := c, vel := v, acc := ⟨0, 0, 0⟩, mass := central_mass } :: ps ∧
      s1 = s2 := by
  simp only [elliptical] at h
  split at h
  · exact absurd h (by simp)
  · rename_i ps s2 hg
    simp only [Option.some.injEq, Prod.mk.injEq] at h
    exact ⟨ps, s2, hg, h.1.symm, h.2.symm⟩

/-- A successful `spiral` block is the central particle followed by the
generated mass-1 particles. -/
theorem spiral_spec (ops : MathOps) (fuel num_particles : Nat) (gravity : ℚ)
    (v c : V3) (central_mass : ℚ) (s : RngState)
    (l : List Particle) (s1 : RngState)
    (h : spiral ops fuel num_particles gravity v c central_mass s = some (l, s1)) :
    ∃ ps s2,
      genParticles
          (spiralStep ops fuel num_particles gravity SpiralGalaxyParams.default c v)
          1 (num_particles - 1) s = some (ps, s2) ∧
      l = { pos := c, vel := v, acc := ⟨0, 0, 0⟩, mass := central_mass } :: ps ∧
      s1 = s2 := by
  simp only [spiral] at h
  split at h
  · exact absurd h (by simp)
  · rename_i ps s2 hg
    simp only [Option.some.injEq, Prod.mk.injEq] at h
    exact ⟨ps, s2, hg, h.1.symm, h.2.symm⟩

/-- A successful per-galaxy block: central particle first, then
`num_particles - 1` mass-1 particles (either morphology). -/
theorem galaxyBlock_shape (ops : MathOps) (fuel : Nat) (gt : GalaxyType) (p : SimParams)
    (i : Nat) (s : RngState) (b : List Particle) (s1 : RngState)
    (h : galaxyBlock ops fuel gt p i s = some (b, s1)) :
    ∃ ps, b = centralParticle ops p i :: ps ∧ ps.length = p.num_particles - 1 ∧
      ∀ q ∈ ps, q.mass = 1 := by
  cases gt with
  | Elliptical =>
    obtain ⟨ps, s2, hg, hb, -⟩ := elliptical_spec ops fuel p.num_particles p.gravity
      (galaxyVelocity ops p i) (galaxyCenter ops p i) p.central_mass p.calibrate s b s1 h
    refine ⟨ps, hb, genParticles_length _ _ _ _ _ _ hg, ?_⟩
    exact genParticles_step_prop _ (fun q => q.mass = 1)
      (fun j s q s3 hq => ellipticalStep_mass ops fuel p.gravity p.central_mass p.calibrate
        (galaxyVelocity ops p i) (galaxyCenter ops p i) s q s3 hq) _ _ _ _ _ hg
  | Spiral =>
    obtain ⟨ps, s2, hg, hb, -⟩ := spiral_spec ops fuel p.num_particles p.gravity
      (galaxyVelocity ops p i) (galaxyCenter ops p i) p.central_mass s b s1 h
    refine ⟨ps, hb, genParticles_length _ _ _ _ _ _ hg, ?_⟩
    exact genParticles_step_prop _ (fun q => q.mass = 1)
      (fun j s q s3 hq => spiralStep_mass ops fuel p.num_particles p.gravity
        SpiralGalaxyParams.default (galaxyCenter ops p i) (galaxyVelocity ops p i)
        j s q s3 hq) _ _ _ _ _ hg

theorem galaxyBlocksFrom_length (ops : MathOps) (fuel : Nat) (gt : GalaxyType)
    (p : SimParams) :
    ∀ (n i : Nat) (s : RngState) (bs : List (List Particle)) (s1 : RngState),
      galaxyBlocksFrom ops fuel gt p i n s = some (bs, s1) → bs.length = n := by
  intro n
  induction n with
  | zero =>
    intro i s bs s1 h
    simp only [galaxyBlocksFrom, Option.some.injEq, Prod.mk.injEq] at h
    simp [← h.1]
  | succ n ih =>
    intro i s bs s1 h
    simp only [galaxyBlocksFrom] at h
    cases hb : galaxyBlock ops fuel gt p i s with
    | none => rw [hb] at h; simp at h
    | some r =>
      obtain ⟨b, s2⟩ := r
      rw [hb] at h
      dsimp only at h
      cases hrec : galaxyBlocksFrom ops fuel gt p (i + 1) n s2 with
      | none => rw [hrec] at h; simp at h
      | some r2 =>
        obtain ⟨bs2, s3⟩ := r2
        rw [hrec] at h
        simp only [Option.some.injEq, Prod.mk.injEq] at h
        rw [← h.1]
        simp [ih _ _ _ _ hrec]

theorem galaxyBlocksFrom_get (ops : MathOps) (fuel : Nat) (gt : GalaxyType)
    (p : SimParams) :
    ∀ (n i : Nat) (s : RngState) (bs : List (List Particle)) (s1 : RngState),
      galaxyBlocksFrom ops fuel gt p i n s = some (bs, s1) →
      ∀ (j : Nat) (hj : j < bs.length),
        ∃ s0 s2, galaxyBlock ops fuel gt p (i + j) s0 = some (bs.get ⟨j, hj⟩, s2) := by
  intro n
  induction n with
  | zero =>
    intro i s bs s1 h
    simp only [galaxyBlocksFrom, Option.some.injEq, Prod.mk.injEq] at h
    rw [← h.1]
    intro j hj
    simp at hj
  | succ n ih =>
    intro i s bs s1 h
    simp only [galaxyBlocksFrom] at h
    cases hb : galaxyBlock ops fuel gt p i s with
    | none => rw [hb] at h; simp at h
    | some r =>
      obtain ⟨b, s2⟩ := r
      rw [hb] at h
      dsimp only at h
      cases hrec : galaxyBlocksFrom ops fuel gt p (i + 1) n s2 with
      | none => rw [hrec] at h; simp at h
      | some r2 =>
        obtain ⟨bs2, s3⟩ := r2
        rw [hrec] at h
        simp only [Option.some.injEq, Prod.mk.injEq] at h
        obtain ⟨hbs, -⟩ := h
        rw [← hbs]
        intro j hj
        cases j with
        | zero => exact ⟨s, s2, by simpa using hb⟩
        | succ j =>
          obtain ⟨s0, s4, hj2⟩ := ih _ _ _ _ hrec j (by simpa using Nat.lt_of_succ_lt_succ hj)
          refine ⟨s0, s4, ?_⟩
          have hieq : i + (j + 1) = i + 1 + j := by omega
          rw [hieq]
          simpa using hj2

theorem V3.add_sub_cancel_right (a b : V3) : a + b - b = a := by
  cases a; cases b
  show V3.sub (V3.add _ _) _ = _
  simp [V3.add, V3.sub]

theorem V3.cross_unitZ (a : V3) : V3.cross a V3.unitZ = ⟨a.y, -a.x, 0⟩ := by
  cases a
  simp [V3.cross, V3.unitZ]

instance : Inhabited V3 := ⟨⟨0, 0, 0⟩⟩
instance : Inhabited Particle := ⟨⟨⟨0, 0, 0⟩, ⟨0, 0, 0⟩, ⟨0, 0, 0⟩, 0⟩⟩
instance : Inhabited RngState := ⟨⟨fun _ => 0, 0⟩⟩

/-- Concrete parameter set used to instantiate the theorems: two particles
in one galaxy. -/
def pA : SimParams :=
  { SimParams.default with
      num_particles := 2, num_galaxies := 1, gravity := 1, central_mass := 1,
      calibrate := 0, galaxy_velocity := 0 }

/-- Concrete parameter set with `num_particles = 0`. -/
def pZero : SimParams := { SimParams.default with num_particles := 0, num_galaxies := 1 }

/-- Concrete parameter set with `num_galaxies = 0`. -/
def pNoGal : SimParams := { SimParams.default with num_galaxies := 0 }

/-! ## The claims -/

/-- C2: generation is deterministic: two calls of the generation entry
point with identical morphology, parameter set and seeding function return
identical particle sequences (the embedded generator is a pure function of
its arguments; the source seeds its rng from the constant 42 on every
call, so equal inputs drive identical draw sequences). -/
theorem claim_C2 (ops : MathOps) (fuel : Nat) (f1 f2 : Nat → Nat → ℚ)
    (gt1 gt2 : GalaxyType) (q1 q2 : SimParams)
    (hf : f1 = f2) (hgt : gt1 = gt2) (hq : q1 = q2) :
    create_galaxies ops fuel f1 gt1 q1 = create_galaxies ops fuel f2 gt2 q2 := by
  rw [hf, hgt, hq]

theorem claim_C2_witness :
    create_galaxies opsId 1 (fun _ => streamHalf) GalaxyType.Elliptical pA =
      create_galaxies opsId 1 (fun _ => streamHalf) GalaxyType.Elliptical pA :=
  claim_C2 opsId 1 (fun _ => streamHalf) (fun _ => streamHalf)
    GalaxyType.Elliptical GalaxyType.Elliptical pA pA rfl rfl rfl

/-- C9 (amended): `SimParams` has no validating constructor — any field
values are accepted — and generation with `num_galaxies = 0` silently
succeeds with the empty particle sequence instead of failing with a
configuration error. -/
theorem claim_C9 (ops : MathOps) (fuel : Nat) (gt : GalaxyType) (p : SimParams)
    (s : RngState) (h : p.num_galaxies = 0) :
    createGalaxies ops fuel gt p s = some [] := by
  simp [createGalaxies, h, galaxyBlocksFrom]

theorem claim_C9_witness :
    createGalaxies opsId 1 GalaxyType.Spiral pNoGal stHalf = some [] :=
  claim_C9 opsId 1 GalaxyType.Spiral pNoGal stHalf rfl

/-- C9, the claim as stated, is false: generation for a parameter set with
`galaxy_count = 0` (all other fields the crate defaults) succeeds and
silently returns the empty particle sequence; no construction-time or
generation-time error path exists. -/
theorem claim_C9_counterexample :
    pNoGal.num_galaxies = 0 ∧
    createGalaxies opsId 1 GalaxyType.Elliptical pNoGal stHalf = some [] := by
  exact ⟨rfl, rfl⟩

theorem galaxyBlock_small (ops : MathOps) (fuel : Nat) (gt : GalaxyType) (p : SimParams)
    (i : Nat) (s : RngState) (hnp : p.num_particles ≤ 1) :
    galaxyBlock ops fuel gt p i s = some ([centralParticle ops p i], s) := by
  have h0 : p.num_particles - 1 = 0 := by omega
  cases gt <;>
    simp [galaxyBlock, elliptical, spiral, h0, genParticles, centralParticle]

theorem flatten_map_singleton {α β : Type} (f : α → List β) :
    ∀ (l : List α), (l.map f).flatten = l.flatMap f := by
  intro l
  induction l with
  | nil => rfl
  | cons a l ih => simp [ih]

theorem galaxyBlocksFrom_small (ops : MathOps) (fuel : Nat) (gt : GalaxyType)
    (p : SimParams) (hnp : p.num_particles ≤ 1) :
    ∀ (n i : Nat) (s : RngState),
      galaxyBlocksFrom ops fuel gt p i n s =
        some ((List.range n).map (fun j => [centralParticle ops p (i + j)]), s) := by
  intro n
  induction n with
  | zero => intro i s; simp [galaxyBlocksFrom]
  | succ n ih =>
    intro i s
    simp only [galaxyBlocksFrom, galaxyBlock_small ops fuel gt p i s hnp]
    rw [ih (i + 1) s]
    have hfun : (fun j => [centralParticle ops p (i + 1 + j)]) =
        ((fun j => [centralParticle ops p (i + j)]) ∘ Nat.succ) := by
      funext j
      simp only [Function.comp]
      congr 2
      omega
    rw [List.range_succ_eq_map, List.map_cons, List.map_map, Nat.add_zero, hfun]
    rfl

/-- C10: with `num_particles = 0` the per-particle loop `for _ in
1..num_particles` still runs zero times after the unconditional central
push, so for `num_particles ∈ {0, 1}` every galaxy block is exactly the
one central particle and the output has length `num_galaxies`; in
particular for `num_particles = 0` (and at least one galaxy) the length is
`num_galaxies ≠ num_particles * num_galaxies`. -/
theorem claim_C10 (ops : MathOps) (fuel : Nat) (gt : GalaxyType) (p : SimParams)
    (s : RngState) (hnp : p.num_particles ≤ 1) :
    createGalaxies ops fuel gt p s =
      some (((List.range p.num_galaxies).map (fun g => [centralParticle ops p g])).flatten) ∧
    (createGalaxies ops fuel gt p s).map List.length = some p.num_galaxies ∧
    (p.num_particles = 0 → 1 ≤ p.num_galaxies →
      (createGalaxies ops fuel gt p s).map List.length ≠
        some (p.num_particles * p.num_galaxies)) := by
  have hb := galaxyBlocksFrom_small ops fuel gt p hnp p.num_galaxies 0 s
  have hc : createGalaxies ops fuel gt p s =
      some (((List.range p.num_galaxies).map (fun g => [centralParticle ops p g])).flatten) := by
    simp [createGalaxies, hb]
  have hone : ∀ (l : List Nat),
      ((l.map (fun g => [centralParticle ops p g])).map List.length).sum = l.length := by
    intro l
    induction l with
    | nil => rfl
    | cons a l ih =>
      simp only [List.map_cons, List.length_cons, List.sum_cons, ih]
      exact Nat.add_comm 1 l.length
  have hlen : (createGalaxies ops fuel gt p s).map List.length = some p.num_galaxies := by
    rw [hc]
    have hthis := hone (List.range p.num_galaxies)
    simp only [List.length_range, List.map_map] at hthis
    simp [List.length_flatten, hthis]
  refine ⟨hc, hlen, ?_⟩
  intro h0 h1
  rw [hlen, h0]
  simp only [Nat.zero_mul, ne_eq, Option.some.injEq]
  omega

theorem claim_C10_witness :
    (createGalaxies opsId 1 GalaxyType.Elliptical pZero stHalf).map List.length =
      some pZero.num_galaxies :=
  (claim_C10 opsId 1 GalaxyType.Elliptical pZero stHalf (by decide)).2.1

/-- C1, the claim as stated, is false: `num_particles = 0` with one galaxy
(a parameter set the spec's validation rules accept) produces one particle,
not `0 × 1 = 0`. -/
theorem claim_C1_counterexample :
    (createGalaxies opsId 1 GalaxyType.Elliptical pZero stHalf).map List.length = some 1 ∧
    pZero.num_particles * pZero.num_galaxies = 0 := by
  exact ⟨rfl, rfl⟩

/-- C1 (amended): for `num_particles ≥ 1`, every successful generation run
is the galaxy-major concatenation of one block per galaxy (in galaxy-index
order), each block of length exactly `num_particles`, so the output length
is `num_particles × num_galaxies`. -/
theorem claim_C1 (ops : MathOps) (fuel : Nat) (gt : GalaxyType) (p : SimParams)
    (s : RngState) (l : List Particle)
    (hnp : 1 ≤ p.num_particles)
    (h : createGalaxies ops fuel gt p s = some l) :
    ∃ bs, galaxyBlocks ops fuel gt p s = some bs ∧
      l = bs.flatten ∧ bs.length = p.num_galaxies ∧
      (∀ b ∈ bs, b.length = p.num_particles) ∧
      l.length = p.num_particles * p.num_galaxies := by
  simp only [createGalaxies] at h
  cases hfrom : galaxyBlocksFrom ops fuel gt p 0 p.num_galaxies s with
  | none => rw [hfrom] at h; simp at h
  | some r =>
    obtain ⟨bs, s1⟩ := r
    rw [hfrom] at h
    simp at h
    have hbs : galaxyBlocks ops fuel gt p s = some bs := by
      simp [galaxyBlocks, hfrom]
    have hlen : bs.length = p.num_galaxies :=
      galaxyBlocksFrom_length ops fuel gt p p.num_galaxies 0 s bs s1 hfrom
    have hblk : ∀ b ∈ bs, b.length = p.num_particles := by
      intro b hbmem
      obtain ⟨j, hjb⟩ := List.mem_iff_get.mp hbmem
      obtain ⟨s0, s2, hblock⟩ := galaxyBlocksFrom_get ops fuel gt p p.num_galaxies 0 s bs s1
        hfrom j j.isLt
      have hbj : bs.get ⟨(j : Nat), j.isLt⟩ = b := by rw [← hjb]
      rw [hbj] at hblock
      obtain ⟨ps, hbeq, hpslen, -⟩ :=
        galaxyBlock_shape ops fuel gt p (0 + j) s0 b s2 hblock
      rw [hbeq]
      simp only [List.length_cons, hpslen]
      omega
    refine ⟨bs, hbs, h.symm, hlen, hblk, ?_⟩
    have hrep : bs.map List.length = List.replicate (bs.map List.length).length p.num_particles := by
      apply List.eq_replicate_of_mem
      intro x hx
      obtain ⟨b, hbmem, hbx⟩ := List.mem_map.mp hx
      rw [← hbx]
      exact hblk b hbmem
    rw [List.length_map] at hrep
    rw [← h, List.length_flatten, hrep, List.sum_replicate, smul_eq_mul, hlen, Nat.mul_comm]

theorem V3.add_def (a b : V3) : a + b = ⟨a.x + b.x, a.y + b.y, a.z + b.z⟩ := rfl

theorem V3.sub_def (a b : V3) : a - b = ⟨a.x - b.x, a.y - b.y, a.z - b.z⟩ := rfl

/-- The central particle of the small elliptical run `pA`. -/
def centralA : Particle := { pos := ⟨0, 0, 0⟩, vel := ⟨0, 0, 0⟩, acc := ⟨0, 0, 0⟩, mass := 1 }

/-- The disk particle of the small elliptical run `pA`. -/
def diskA : Particle :=
  { pos := ⟨3/10, 0, 0⟩, vel := ⟨0, 100000/243, 0⟩, acc := ⟨0, 0, 0⟩, mass := 1 }

/-- The concrete output list of the small elliptical run. -/
def lA : List Particle := [centralA, diskA]

/-- The concrete block list of the small elliptical run. -/
def bsA : List (List Particle) := [[centralA, diskA]]

/-- The first (only) block of the small elliptical run. -/
def bA : List Particle := [centralA, diskA]

theorem createGalaxies_pA :
    createGalaxies opsId 1 GalaxyType.Elliptical pA stHalf = some lA := by
  norm_num [createGalaxies, galaxyBlocksFrom, galaxyBlock, elliptical, genParticles,
    ellipticalParticle, ellipticalVariation, ellipticalRotationSpeed, sampleDiskPos,
    sampleBulgePos, genF, opsId, stHalf, streamHalf, MathOps.mag, MathOps.normalize,
    V3.normSq, V3.smul, V3.add_def, disk_scale_radius, disk_scale_height, bulge_fraction,
    pA, SimParams.default, galaxyCenter, galaxyVelocity, centralParticle, lA, centralA, diskA]

theorem galaxyBlocks_pA :
    galaxyBlocks opsId 1 GalaxyType.Elliptical pA stHalf = some bsA := by
  norm_num [galaxyBlocks, galaxyBlocksFrom, galaxyBlock, elliptical, genParticles,
    ellipticalParticle, ellipticalVariation, ellipticalRotationSpeed, sampleDiskPos,
    sampleBulgePos, genF, opsId, stHalf, streamHalf, MathOps.mag, MathOps.normalize,
    V3.normSq, V3.smul, V3.add_def, disk_scale_radius, disk_scale_height, bulge_fraction,
    pA, SimParams.default, galaxyCenter, galaxyVelocity, centralParticle, bsA, centralA, diskA]

theorem claim_C1_witness :
    ∃ bs, galaxyBlocks opsId 1 GalaxyType.Elliptical pA stHalf = some bs ∧
      lA = bs.flatten ∧ bs.length = pA.num_galaxies ∧
      (∀ b ∈ bs, b.length = pA.num_particles) ∧
      lA.length = pA.num_particles * pA.num_galaxies :=
  claim_C1 opsId 1 GalaxyType.Elliptical pA stHalf lA (by decide) createGalaxies_pA

/-- C3: for every galaxy index `g`, the first particle of galaxy `g`'s
block has mass `central_mass`, position exactly the galaxy's computed
center, velocity the galaxy's bulk velocity and zero acceleration, and
every other particle of the block has mass exactly 1. -/
theorem claim_C3 (ops : MathOps) (fuel : Nat) (gt : GalaxyType) (p : SimParams)
    (s : RngState) (bs : List (List Particle)) (g : Nat) (b : List Particle)
    (h : galaxyBlocks ops fuel gt p s = some bs)
    (hb : bs[g]? = some b) :
    b.head? = some { pos := galaxyCenter ops p g, vel := galaxyVelocity ops p g,
                     acc := ⟨0, 0, 0⟩, mass := p.central_mass } ∧
    ∀ q ∈ b.tail, q.mass = 1 := by
  simp only [galaxyBlocks] at h
  cases hfrom : galaxyBlocksFrom ops fuel gt p 0 p.num_galaxies s with
  | none => rw [hfrom] at h; simp at h
  | some r =>
    obtain ⟨bs2, s1⟩ := r
    rw [hfrom] at h
    simp at h
    rw [← h] at hb
    have hg : g < bs2.length := (List.getElem?_eq_some_iff.mp hb).1
    have hbg : bs2.get ⟨g, hg⟩ = b := by
      have := (List.getElem?_eq_some_iff.mp hb).2
      simpa using this
    obtain ⟨s0, s2, hblock⟩ :=
      galaxyBlocksFrom_get ops fuel gt p p.num_galaxies 0 s bs2 s1 hfrom g hg
    rw [hbg] at hblock
    rw [Nat.zero_add] at hblock
    obtain ⟨ps, hbeq, -, hmass⟩ := galaxyBlock_shape ops fuel gt p g s0 b s2 hblock
    rw [hbeq]
    exact ⟨rfl, hmass⟩

theorem claim_C3_witness :
    bA.head? = some { pos := galaxyCenter opsId pA 0, vel := galaxyVelocity opsId pA 0,
                      acc := ⟨0, 0, 0⟩, mass := pA.central_mass } ∧
    ∀ q ∈ bA.tail, q.mass = 1 :=
  claim_C3 opsId 1 GalaxyType.Elliptical pA stHalf bsA 0 bA galaxyBlocks_pA (by simp [bsA, bA])

/-- C4: every position accepted by the elliptical rejection loops
satisfies the magnitude bounds: at most 0.6 always, and at least 0.02 when
the particle was disk-sampled (first draw not below the bulge fraction);
the loops only ever terminate with such a position. -/
theorem claim_C4 (ops : MathOps) (fuel : Nat) (gravity central_mass softening : ℚ)
    (v c : V3) (s : RngState) (q : Particle) (s1 : RngState)
    (h : ellipticalParticle ops fuel gravity central_mass softening v c s = some (q, s1)) :
    ops.mag (q.pos - c) ≤ 0.6 ∧
    (¬ (genF s).1 < bulge_fraction → 0.02 ≤ ops.mag (q.pos - c)) := by
  obtain ⟨pos, s2, hsp, hpos, -, -, -, -⟩ :=
    ellipticalParticle_spec ops fuel gravity central_mass softening v c s q s1 h
  have hqc : q.pos - c = pos := by rw [hpos]; exact V3.add_sub_cancel_right pos c
  rw [hqc]
  by_cases hb : (genF s).1 < bulge_fraction
  · simp only [hb, decide_eq_true_eq, if_true, decide_eq_true] at hsp
    exact ⟨sampleBulgePos_bound ops fuel _ pos s2 hsp, fun hc => absurd hb hc⟩
  · simp only [hb, decide_eq_false, Bool.false_eq_true, if_false] at hsp
    have hd := sampleDiskPos_bounds ops fuel _ pos s2 hsp
    exact ⟨hd.1, fun _ => hd.2⟩

/-- The concrete state after the small elliptical particle run (8 draws
consumed: classification, four disk draws, three dispersion draws). -/
def sC4 : RngState := ⟨streamHalf, 8⟩

theorem ellipticalParticle_pA :
    ellipticalParticle opsId 1 1 1 0 ⟨0, 0, 0⟩ ⟨0, 0, 0⟩ stHalf = some (diskA, sC4) := by
  norm_num [ellipticalParticle, ellipticalVariation, ellipticalRotationSpeed, sampleDiskPos,
    sampleBulgePos, genF, opsId, stHalf, streamHalf, MathOps.mag, MathOps.normalize,
    V3.normSq, V3.smul, V3.add_def, disk_scale_radius, disk_scale_height, bulge_fraction,
    diskA, sC4]

theorem claim_C4_witness :
    opsId.mag (diskA.pos - ⟨0, 0, 0⟩) ≤ 0.6 ∧
    (¬ (genF stHalf).1 < bulge_fraction → 0.02 ≤ opsId.mag (diskA.pos - ⟨0, 0, 0⟩)) :=
  claim_C4 opsId 1 1 1 0 ⟨0, 0, 0⟩ ⟨0, 0, 0⟩ stHalf diskA sC4 ellipticalParticle_pA

/-- The combined elliptical speed formula asserted by the spec (claim C5),
stated from the spec's words: central contribution
`G·central_mass·d²/(d²+softening)^1.5` plus halo contribution
`halo_velocity²·d²/(d²+halo_radius²)`, under one square root.  (`SimParams`
of this code has no halo fields; the spec's defaults are
`halo_velocity = 2`, `halo_radius = 2`.) -/
def specEllipticalSpeed (ops : MathOps)
    (gravity central_mass softening halo_velocity halo_radius d : ℚ) : ℚ :=
  ops.sqrt (gravity * central_mass * d * d / ((d * d + softening) * ops.sqrt (d * d + softening))
    + halo_velocity ^ 2 * d * d / (d * d + halo_radius ^ 2))

/-- C5 (amended): the orbital speed of every non-central elliptical
particle is `sqrt(G·central_mass·d²/((d²+softening)·sqrt(d²+softening)))`
with `d` the magnitude of the relative offset — the central contribution
alone; this code has no dark-matter-halo term (`SimParams` carries no halo
fields). -/
theorem claim_C5 (ops : MathOps) (fuel : Nat) (gravity central_mass softening : ℚ)
    (v c : V3) (s : RngState) (q : Particle) (s1 : RngState)
    (h : ellipticalParticle ops fuel gravity central_mass softening v c s = some (q, s1)) :
    ∃ pos s2,
      (if decide ((genF s).1 < bulge_fraction) then sampleBulgePos ops fuel (genF s).2
       else sampleDiskPos ops fuel (genF s).2) = some (pos, s2) ∧
      pos = q.pos - c ∧
      q.vel =
        V3.smul
            (ops.sqrt (gravity * central_mass * ops.mag pos * ops.mag pos /
              ((ops.mag pos * ops.mag pos + softening) *
                ops.sqrt (ops.mag pos * ops.mag pos + softening))))
            (ops.normalize ⟨-pos.y, pos.x, 0⟩) +
          (ellipticalVariation (decide ((genF s).1 < bulge_fraction)) s2).1 + v := by
  obtain ⟨pos, s2, hsp, hpos, hvel, -, -, -⟩ :=
    ellipticalParticle_spec ops fuel gravity central_mass softening v c s q s1 h
  refine ⟨pos, s2, hsp, ?_, ?_⟩
  · rw [hpos]; exact (V3.add_sub_cancel_right pos c).symm
  · rw [hvel]
    rfl

theorem claim_C5_witness :
    ∃ pos s2,
      (if decide ((genF stHalf).1 < bulge_fraction) then sampleBulgePos opsId 1 (genF stHalf).2
       else sampleDiskPos opsId 1 (genF stHalf).2) = some (pos, s2) ∧
      pos = diskA.pos - ⟨0, 0, 0⟩ ∧
      diskA.vel =
        V3.smul
            (opsId.sqrt (1 * 1 * opsId.mag pos * opsId.mag pos /
              ((opsId.mag pos * opsId.mag pos + 0) *
                opsId.sqrt (opsId.mag pos * opsId.mag pos + 0))))
            (opsId.normalize ⟨-pos.y, pos.x, 0⟩) +
          (ellipticalVariation (decide ((genF stHalf).1 < bulge_fraction)) s2).1 + ⟨0, 0, 0⟩ :=
  claim_C5 opsId 1 1 1 0 ⟨0, 0, 0⟩ ⟨0, 0, 0⟩ stHalf diskA sC4 ellipticalParticle_pA

/-- C5, the claim as stated, is false on this code: on a concrete
elliptical run the produced velocity differs from the spec's predicted
velocity built from the combined central-plus-halo speed (with the spec's
default halo parameters), because the code computes the central
contribution only. -/
theorem claim_C5_counterexample :
    ellipticalParticle opsId 1 1 1 0 ⟨0, 0, 0⟩ ⟨0, 0, 0⟩ stHalf = some (diskA, sC4) ∧
    diskA.vel ≠
      V3.smul (specEllipticalSpeed opsId 1 1 0 2 2 (opsId.mag (diskA.pos - ⟨0, 0, 0⟩)))
          (opsId.normalize ⟨-(diskA.pos - ⟨0, 0, 0⟩).y, (diskA.pos - ⟨0, 0, 0⟩).x, 0⟩) +
        (ellipticalVariation (decide ((genF stHalf).1 < bulge_fraction)) ⟨streamHalf, 5⟩).1 +
        ⟨0, 0, 0⟩ := by
  refine ⟨ellipticalParticle_pA, ?_⟩
  norm_num [specEllipticalSpeed, ellipticalVariation, genF, opsId, stHalf, streamHalf,
    MathOps.mag, MathOps.normalize, V3.normSq, V3.smul, V3.add_def, V3.sub_def,
    bulge_fraction, diskA, V3.mk.injEq]

/-- The spiral speed formula asserted by the spec (claim C6), stated from
the spec's words: `sqrt(G · d)`. -/
def specSpiralSpeed (ops : MathOps) (gravity d : ℚ) : ℚ := ops.sqrt (gravity * d)

/-- C6 (amended): every non-central spiral particle (bulge or arm) gets
orbital speed `sqrt(gravity / d)` — gravity divided by the distance, a
single scalar rate constant with no softening — before the bulk velocity
is added. -/
theorem claim_C6 (ops : MathOps) (fuel : Nat) (gravity : ℚ) (gp : SpiralGalaxyParams)
    (c v : V3) (s sa : RngState) (r : V3 × V3 × ℚ) (s1 : RngState) (i : ℚ) (N : Nat) :
    (create_bulge_particle ops fuel gravity gp c v s = some (r, s1) →
      r.2.1 = V3.smul (ops.sqrt (gravity / ops.mag (r.1 - c)))
          (ops.normalize (V3.cross (r.1 - c) V3.unitZ)) + v) ∧
    (create_arm_particle ops i N gravity gp c v sa).1.2.1 =
      V3.smul
          (ops.sqrt (gravity /
            ops.mag ((create_arm_particle ops i N gravity gp c v sa).1.1 - c)))
          (ops.normalize
            (V3.cross ((create_arm_particle ops i N gravity gp c v sa).1.1 - c) V3.unitZ)) +
        v := by
  constructor
  · intro h
    obtain ⟨pos, s2, hsp, hr, -⟩ :=
      create_bulge_particle_spec ops fuel gravity gp c v s r s1 h
    rw [hr]
    rfl
  · rfl

/-- The concrete bulge particle of a small spiral run over the all-ones
stream. -/
def rB : V3 × V3 × ℚ := (⟨1/10, 1/10, 1/25⟩, ⟨6250/27, -6250/27, 0⟩, 1)

theorem create_bulge_pB :
    create_bulge_particle opsId 1 1 SpiralGalaxyParams.default ⟨0, 0, 0⟩ ⟨0, 0, 0⟩ stOne =
      some (rB, ⟨streamOne, 3⟩) := by
  norm_num [create_bulge_particle, spiralBulgePos, spiralSpeed, sampleNormal, opsId, stOne,
    streamOne, MathOps.mag, MathOps.normalize, V3.normSq, V3.smul, V3.add, V3.add_def,
    V3.sub_def, V3.cross, V3.unitZ, SpiralGalaxyParams.default, rB]

theorem claim_C6_witness :
    rB.2.1 = V3.smul (opsId.sqrt (1 / opsId.mag (rB.1 - ⟨0, 0, 0⟩)))
        (opsId.normalize (V3.cross (rB.1 - ⟨0, 0, 0⟩) V3.unitZ)) + ⟨0, 0, 0⟩ ∧
    (create_arm_particle opsId 0 100 1 SpiralGalaxyParams.default ⟨0, 0, 0⟩ ⟨0, 0, 0⟩
        stOne).1.2.1 =
      V3.smul
          (opsId.sqrt (1 /
            opsId.mag ((create_arm_particle opsId 0 100 1 SpiralGalaxyParams.default
              ⟨0, 0, 0⟩ ⟨0, 0, 0⟩ stOne).1.1 - ⟨0, 0, 0⟩)))
          (opsId.normalize
            (V3.cross ((create_arm_particle opsId 0 100 1 SpiralGalaxyParams.default
              ⟨0, 0, 0⟩ ⟨0, 0, 0⟩ stOne).1.1 - ⟨0, 0, 0⟩) V3.unitZ)) + ⟨0, 0, 0⟩ :=
  ⟨(claim_C6 opsId 1 1 SpiralGalaxyParams.default ⟨0, 0, 0⟩ ⟨0, 0, 0⟩ stOne stOne rB
      ⟨streamOne, 3⟩ 0 100).1 create_bulge_pB,
   (claim_C6 opsId 1 1 SpiralGalaxyParams.default ⟨0, 0, 0⟩ ⟨0, 0, 0⟩ stOne stOne rB
      ⟨streamOne, 3⟩ 0 100).2⟩

/-- The concrete arm particle of a small spiral run over the all-ones
stream (index 0, 100 particles, unit gravity, centered at the origin). -/
def armP : (V3 × V3 × ℚ) × RngState :=
  create_arm_particle opsId 0 100 1 SpiralGalaxyParams.default ⟨0, 0, 0⟩ ⟨0, 0, 0⟩ stOne

/-- C6, the claim as stated, is false on this code: a concrete arm
particle's velocity differs from the one predicted with speed
`sqrt(G · d)`, because the code computes `sqrt(G / d)`. -/
theorem claim_C6_counterexample :
    armP.1.2.1 ≠
      V3.smul (specSpiralSpeed opsId 1 (opsId.mag (armP.1.1 - ⟨0, 0, 0⟩)))
        (opsId.normalize (V3.cross (armP.1.1 - ⟨0, 0, 0⟩) V3.unitZ)) + ⟨0, 0, 0⟩ := by
  norm_num [armP, create_arm_particle, specSpiralSpeed, spiralSpeed, sampleNormal, f32rem,
    ftrunc, opsId, stOne, streamOne, MathOps.mag, MathOps.normalize, V3.normSq, V3.smul,
    V3.add, V3.add_def, V3.sub_def, V3.cross, V3.unitZ, SpiralGalaxyParams.default,
    V3.mk.injEq]

/-- C7 (amended): the orbital velocity component is purely tangential and
in-plane for every non-central particle, but the two morphologies rotate
in opposite senses: elliptical particles use the normalized
`(-Δ_y, Δ_x, 0)`, while spiral particles (bulge and arm) use
`Δ × ẑ = (Δ_y, -Δ_x, 0)` normalized — the negation of the claimed
direction. -/
theorem claim_C7 (ops : MathOps) (fuel : Nat) (gravity central_mass softening : ℚ)
    (gp : SpiralGalaxyParams) (c v : V3) (s sb sa : RngState) (q : Particle)
    (s1 : RngState) (r : V3 × V3 × ℚ) (s2 : RngState) (i : ℚ) (N : Nat) :
    (ellipticalParticle ops fuel gravity central_mass softening v c s = some (q, s1) →
      ∃ pos s3,
        (if decide ((genF s).1 < bulge_fraction) then sampleBulgePos ops fuel (genF s).2
         else sampleDiskPos ops fuel (genF s).2) = some (pos, s3) ∧
        q.vel =
          V3.smul (ellipticalRotationSpeed ops gravity central_mass softening (ops.mag pos))
              (ops.normalize ⟨-pos.y, pos.x, 0⟩) +
            (ellipticalVariation (decide ((genF s).1 < bulge_fraction)) s3).1 + v) ∧
    (create_bulge_particle ops fuel gravity gp c v sb = some (r, s2) →
      r.2.1 = V3.smul (spiralSpeed ops gravity (r.1 - c))
          (ops.normalize ⟨(r.1 - c).y, -(r.1 - c).x, 0⟩) + v) ∧
    (create_arm_particle ops i N gravity gp c v sa).1.2.1 =
      V3.smul (spiralSpeed ops gravity ((create_arm_particle ops i N gravity gp c v sa).1.1 - c))
        (ops.normalize
          ⟨((create_arm_particle ops i N gravity gp c v sa).1.1 - c).y,
           -((create_arm_particle ops i N gravity gp c v sa).1.1 - c).x, 0⟩) + v := by
  refine ⟨?_, ?_, ?_⟩
  · intro h
    obtain ⟨pos, s3, hsp, -, hvel, -, -, -⟩ :=
      ellipticalParticle_spec ops fuel gravity central_mass softening v c s q s1 h
    exact ⟨pos, s3, hsp, hvel⟩
  · intro h
    obtain ⟨pos, s3, hsp, hr, -⟩ :=
      create_bulge_particle_spec ops fuel gravity gp c v sb r s2 h
    rw [hr, ← V3.cross_unitZ]
  · rw [← V3.cross_unitZ]
    rfl

theorem claim_C7_witness :
    (∃ pos s3,
        (if decide ((genF stHalf).1 < bulge_fraction) then sampleBulgePos opsId 1 (genF stHalf).2
         else sampleDiskPos opsId 1 (genF stHalf).2) = some (pos, s3) ∧
        diskA.vel =
          V3.smul (ellipticalRotationSpeed opsId 1 1 0 (opsId.mag pos))
              (opsId.normalize ⟨-pos.y, pos.x, 0⟩) +
            (ellipticalVariation (decide ((genF stHalf).1 < bulge_fraction)) s3).1 +
            ⟨0, 0, 0⟩) ∧
    rB.2.1 = V3.smul (spiralSpeed opsId 1 (rB.1 - ⟨0, 0, 0⟩))
        (opsId.normalize ⟨(rB.1 - ⟨0, 0, 0⟩).y, -(rB.1 - ⟨0, 0, 0⟩).x, 0⟩) + ⟨0, 0, 0⟩ :=
  ⟨(claim_C7 opsId 1 1 1 0 SpiralGalaxyParams.default ⟨0, 0, 0⟩ ⟨0, 0, 0⟩ stHalf stOne stOne
      diskA sC4 rB ⟨streamOne, 3⟩ 0 100).1 ellipticalParticle_pA,
   (claim_C7 opsId 1 1 1 0 SpiralGalaxyParams.default ⟨0, 0, 0⟩ ⟨0, 0, 0⟩ stHalf stOne stOne
      diskA sC4 rB ⟨streamOne, 3⟩ 0 100).2.1 create_bulge_pB⟩

/-- C7, the claim as stated, is false on this code: a concrete spiral arm
particle's velocity is opposite to the one predicted with the direction
`(-Δ_y, Δ_x, 0)` — the spiral morphology rotates the other way. -/
theorem claim_C7_counterexample :
    armP.1.2.1 ≠
      V3.smul (spiralSpeed opsId 1 (armP.1.1 - ⟨0, 0, 0⟩))
        (opsId.normalize ⟨-(armP.1.1 - ⟨0, 0, 0⟩).y, (armP.1.1 - ⟨0, 0, 0⟩).x, 0⟩) +
        ⟨0, 0, 0⟩ := by
  norm_num [armP, create_arm_particle, spiralSpeed, sampleNormal, f32rem, ftrunc, opsId,
    stOne, streamOne, MathOps.mag, MathOps.normalize, V3.normSq, V3.smul, V3.add,
    V3.add_def, V3.sub_def, V3.cross, V3.unitZ, SpiralGalaxyParams.default, V3.mk.injEq]

theorem f32rem_natCast_two (n : Nat) :
    f32rem (n : ℚ) 2 = if n % 2 = 0 then 0 else 1 := by
  obtain ⟨k, hk | hk⟩ : ∃ k, n = 2 * k ∨ n = 2 * k + 1 := ⟨n / 2, by omega⟩
  · subst hk
    unfold f32rem ftrunc
    have harg : ((2 * k : ℕ) : ℚ) / 2 = (k : ℚ) := by push_cast; ring
    rw [harg, if_pos (by positivity : (0 : ℚ) ≤ (k : ℚ)), Int.floor_natCast]
    have hm : (2 * k) % 2 = 0 := by omega
    rw [hm, if_pos rfl]
    push_cast
    ring
  · subst hk
    unfold f32rem ftrunc
    have harg : ((2 * k + 1 : ℕ) : ℚ) / 2 = (k : ℚ) + 1 / 2 := by push_cast; ring
    have h0 : (0 : ℚ) ≤ (k : ℚ) + 1 / 2 := by positivity
    have hfl : ⌊(k : ℚ) + 1 / 2⌋ = (k : ℤ) := by
      rw [Int.floor_eq_iff]
      constructor
      · push_cast; linarith
      · push_cast; linarith
    rw [harg, if_pos h0, hfl]
    have hm : (2 * k + 1) % 2 = 1 := by omega
    rw [hm]
    norm_num

/-- C8: the arm angle of the spiral arm particle with generation index `n`
is `θ + 0` for even `n` and `θ + π` for odd `n`, with
`θ = n · (armLength · π) / (particleCount · 0.8)`, and the particle's
in-plane position lies on that angle (radius `armRadius` plus the Gaussian
deviation). -/
theorem claim_C8 (ops : MathOps) (gp : SpiralGalaxyParams) (N : Nat) (gravity : ℚ)
    (c v : V3) (s : RngState) (n : Nat) :
    armTheta ops gp N (n : ℚ) =
      (n : ℚ) * (gp.spiral_length * ops.pi) / ((N : ℚ) * 0.8) +
        (if n % 2 = 0 then 0 else ops.pi) ∧
    (create_arm_particle ops (n : ℚ) N gravity gp c v s).1.1 =
      V3.add
        ⟨(armRadius ops gp N (n : ℚ) + (sampleNormal gp.spiral_width s).1) *
            ops.cos (armTheta ops gp N (n : ℚ)),
         (armRadius ops gp N (n : ℚ) + (sampleNormal gp.spiral_width s).1) *
            ops.sin (armTheta ops gp N (n : ℚ)),
         (sampleNormal gp.spiral_width (sampleNormal gp.spiral_width s).2).1 * gp.width⟩
        c := by
  constructor
  · unfold armTheta
    have hrem := f32rem_natCast_two n
    rcases Nat.mod_two_eq_zero_or_one n with hm | hm
    · rw [hm, if_pos rfl] at hrem
      rw [hrem, hm]
      norm_num
      ring
    · rw [hm] at hrem
      norm_num at hrem
      rw [hrem, hm]
      norm_num
      ring
  · rfl
